import Mathlib

/-!
Shallow embedding of the email-filter watcher: the Gmail classification
pipeline (`classifyEmail` from the OpenAI service module, `applyClassification`
from the Gmail module, and `processMessage` / `poll` / `saveProcessedIds` /
`startWatcher` from the watcher module).  External collaborators (Gmail API,
OpenAI API, filesystem) are modelled as oracles in an `Env` record; every
observable service call is recorded in an explicit trace.
-/

/-- Classification category: the three valid values of the JS string
`result.classification` after validation. -/
inductive Category
  | IMPORTANT
  | REVIEW
  | JUNK
deriving DecidableEq, Repr

/-- A JSON value as it can appear in a field of the model's parsed JSON reply
(arrays/objects are not needed by any claim; jnull also stands for a missing
field, JS `undefined`). -/
inductive JVal
  | jstr (s : String)
  | jnum (q : ℚ)
  | jbool (b : Bool)
  | jnull
deriving DecidableEq, Repr

/-- JS truthiness of a `JVal`. -/
def truthy : JVal → Bool
  | .jstr s => !(s == "")
  | .jnum q => !(q == 0)
  | .jbool b => b
  | .jnull => false

/-- Whether a `JVal` is a non-empty string. -/
def isNonEmptyStr : JVal → Bool
  | .jstr s => !(s == "")
  | _ => false

/-- JS template-string rendering of a `JVal` (used in the error message
`Invalid classification: ...`). -/
def jvalToString : JVal → String
  | .jstr s => s
  | .jnum q => toString q
  | .jbool b => if b then "true" else "false"
  | .jnull => "null"

/-- The object returned by `classifyEmail`. Its `classification` field is one
of the three valid strings (modelled as `Category`); `reason` keeps the JSON
value the JS code stores there (the code does not enforce it is a string). -/
structure ClassificationResult where
  classification : Category
  confidence : ℚ
  reason : JVal
deriving DecidableEq, Repr

/-- Outcome of the OpenAI chat-completions call inside `classifyEmail`'s try
block: either the call (or `JSON.parse`) threw with message `msg`, or it
produced a JSON object whose three relevant fields are given (a field the
model omitted is `jnull`). -/
inductive ModelOutcome
  | apiError (msg : String)
  | parsed (classification confidence reason : JVal)
deriving DecidableEq, Repr

/-- JS `['IMPORTANT', 'REVIEW', 'JUNK'].includes(result.classification)`. -/
def isValidClassification : JVal → Bool
  | .jstr s => s == "IMPORTANT" || s == "REVIEW" || s == "JUNK"
  | _ => false

/-- The `Category` named by a valid classification string (default branch is
unreachable when `isValidClassification` holds). -/
def categoryOf : JVal → Category
  | .jstr s => if s == "IMPORTANT" then .IMPORTANT
      else if s == "REVIEW" then .REVIEW else .JUNK
  | _ => .REVIEW

/-- JS `if (typeof result.confidence !== 'number' || result.confidence < 0 ||
result.confidence > 1) result.confidence = 0.5;`. -/
def fixConfidence : JVal → ℚ
  | .jnum q => if q < 0 ∨ q > 1 then 0.5 else q
  | _ => 0.5

/-- The try/catch body of `classifyEmail`: validation of the model reply and
the catch-all fallback to REVIEW. -/
def classifyCore (o : ModelOutcome) : ClassificationResult :=
  match o with
  | .apiError msg =>
      { classification := .REVIEW, confidence := 0,
        reason := .jstr ("Classification error: " ++ msg) }
  | .parsed c conf rsn =>
      if isValidClassification c then
        { classification := categoryOf c,
          confidence := fixConfidence conf,
          reason := if truthy rsn then rsn else .jstr "No reason provided" }
      else
        -- `throw new Error(...)` inside the try block, caught by the same catch
        { classification := .REVIEW, confidence := 0,
          reason := .jstr ("Classification error: Invalid classification: "
                              ++ jvalToString c) }

/-- `classifyEmail`: if the OpenAI client is not initialized,
`initializeOpenAI()` runs OUTSIDE the try block and throws when
`OPENAI_API_KEY` is unset; otherwise the try/catch body never throws. -/
def classifyEmail (openaiReady apiKeySet : Bool) (o : ModelOutcome) :
    Except String ClassificationResult :=
  if !openaiReady && !apiKeySet then .error "OPENAI_API_KEY not set"
  else .ok (classifyCore o)

/-- A parsed Gmail message as returned by `parseMessage` (fields the watcher
reads; `from` is a Lean keyword, rendered `fromAddr`). -/
structure MessageRecord where
  id : String
  threadId : String
  labelIds : List String
  fromAddr : String
  toAddr : String
  subject : String
  date : String
  snippet : String
  body : String
deriving DecidableEq, Repr

/-- One observable call to an external service, in order of occurrence.
`caughtError` records the `logger.error` in `processMessage`'s catch block. -/
inductive Call
  | fetch (id : String)
  | classify
  | modifyLabels (id : String) (add remove : List String)
  | trash (id : String)
  | caughtError
  | listHistory (h : String)
  | fetchRecent (n : Nat)
  | getHistoryId
deriving DecidableEq, Repr

/-- Return value of `applyClassification`: `{ action: 'trashed' }` or
`{ addLabels, removeLabels }`. -/
inductive ApplyRet
  | trashed
  | labeled (add remove : List String)
deriving DecidableEq, Repr

/-- `applyClassification(messageId, classification)` from the Gmail module.
`labelIds` is the module-level label-name→label-id map populated by
`ensureLabels`; `modifyResult`/`trashResult` are oracles for the outcome of
the Gmail mutation calls.  Returns the mail-service calls issued and the
JS return value (or the thrown error). -/
def applyClassification (labelIds : Category → Option String)
    (modifyResult : String → List String → List String → Except String Unit)
    (trashResult : String → Except String Unit)
    (messageId : String) (classification : Category) :
    List Call × Except String ApplyRet :=
  if classification = .JUNK then
    match trashResult messageId with
    | .error e => ([.trash messageId], .error e)
    | .ok _ => ([.trash messageId], .ok .trashed)
  else
    match labelIds classification with
    | none => ([], .error "Unknown classification")
    | some labelId =>
      let addLabels := [labelId]
      let removeLabels := if classification = .REVIEW then ["INBOX"] else []
      match modifyResult messageId addLabels removeLabels with
      | .error e => ([.modifyLabels messageId addLabels removeLabels], .error e)
      | .ok _ =>
          ([.modifyLabels messageId addLabels removeLabels],
           .ok (.labeled addLabels removeLabels))

/-- The module-level `stats` object of the watcher module. -/
structure WatcherStats where
  totalProcessed : Nat
  important : Nat
  review : Nat
  junk : Nat
  errors : Nat
  lastRun : Option String
  isRunning : Bool
deriving DecidableEq, Repr

/-- The watcher module's mutable state: `watcherInterval` (the timer handle,
`some ms` when armed), `lastHistoryId`, `processedIds` (a JS `Set`, i.e. an
insertion-ordered duplicate-free list), and `stats`. -/
structure WatcherState where
  watcherInterval : Option Nat
  lastHistoryId : Option String
  processedIds : List String
  stats : WatcherStats
deriving DecidableEq, Repr

/-- `data.historyId` plus the optional `data.history` array returned by the
Gmail history API (each item's optional `messagesAdded`, flattened to ids). -/
structure HistoryData where
  history : Option (List (Option (List String)))
  historyId : String
deriving DecidableEq, Repr

/-- Result of `listHistory(startHistoryId)`: `expired` is the JS `null` on a
404 (history id too old). -/
inductive HistoryResult
  | expired
  | data (d : HistoryData)
deriving DecidableEq, Repr

/-- The JSON object written by `saveProcessedIds` (the `savedAt` wall-clock
timestamp is not modelled). -/
structure SavedFile where
  ids : List String
  historyId : Option String
deriving DecidableEq, Repr

/-- The external collaborators, as oracles. -/
structure Env where
  authenticated : Bool
  now : String
  listHistory : String → HistoryResult
  recentMessages : List MessageRecord
  freshHistoryId : String
  fetch : String → Except String MessageRecord
  openaiReady : Bool
  apiKeySet : Bool
  classifyOutcome : MessageRecord → ModelOutcome
  labelIds : Category → Option String
  modifyResult : String → List String → List String → Except String Unit
  trashResult : String → Except String Unit

/-- JS `Set.prototype.add`: insertion-ordered, no duplicates. -/
def addId (l : List String) (id : String) : List String :=
  if id ∈ l then l else l ++ [id]

/-- `stats[result.classification.toLowerCase()]++`. -/
def bumpCategory (s : WatcherStats) : Category → WatcherStats
  | .IMPORTANT => { s with important := s.important + 1 }
  | .REVIEW => { s with review := s.review + 1 }
  | .JUNK => { s with junk := s.junk + 1 }

/-- The three classification label names. -/
def ourLabels : List String := ["AI-Important", "AI-Review", "AI-Junk"]

/-- The object `processMessage` returns on a successful classification. -/
structure ProcessResult where
  messageId : String
  subject : String
  fromAddr : String
  classification : Category
  confidence : ℚ
  reason : JVal
deriving DecidableEq, Repr

/-- `processMessage(messageId)` from the watcher module: dedup check, fetch,
inbox/label skip rules, classification, action, bookkeeping, with the whole
body after the dedup check wrapped in try/catch (`errors++` on any throw). -/
def processMessage (env : Env) (st : WatcherState) (messageId : String) :
    WatcherState × List Call × Option ProcessResult :=
  if messageId ∈ st.processedIds then (st, [], none)
  else
    match env.fetch messageId with
    | .error _ =>
        ({ st with stats := { st.stats with errors := st.stats.errors + 1 } },
         [.fetch messageId, .caughtError], none)
    | .ok email =>
      if !(email.labelIds.contains "INBOX") then
        ({ st with processedIds := addId st.processedIds messageId },
         [.fetch messageId], none)
      else if email.labelIds.any (fun l => ourLabels.contains l) then
        ({ st with processedIds := addId st.processedIds messageId },
         [.fetch messageId], none)
      else
        match classifyEmail env.openaiReady env.apiKeySet
            (env.classifyOutcome email) with
        | .error _ =>
            ({ st with
                stats := { st.stats with errors := st.stats.errors + 1 } },
             [.fetch messageId, .classify, .caughtError], none)
        | .ok result =>
          let (mailCalls, applyRes) :=
            applyClassification env.labelIds env.modifyResult env.trashResult
              messageId result.classification
          match applyRes with
          | .error _ =>
              ({ st with
                  stats := { st.stats with errors := st.stats.errors + 1 } },
               [.fetch messageId, .classify] ++ mailCalls ++ [.caughtError],
               none)
          | .ok _ =>
              ({ st with
                  processedIds := addId st.processedIds messageId,
                  stats := bumpCategory
                    { st.stats with
                        totalProcessed := st.stats.totalProcessed + 1 }
                    result.classification },
               [.fetch messageId, .classify] ++ mailCalls,
               some { messageId := messageId, subject := email.subject,
                      fromAddr := email.fromAddr,
                      classification := result.classification,
                      confidence := result.confidence,
                      reason := result.reason })

/-- The sync-resolution part of `poll` (the two sequential `if` blocks on
`lastHistoryId`): returns the candidate ids, the new `lastHistoryId`, and the
service calls issued. -/
def resolveSync (env : Env) (cursor : Option String) :
    List String × Option String × List Call :=
  let step1 : List String × Option String × List Call :=
    match cursor with
    | none => ([], none, [])
    | some h =>
      match env.listHistory h with
      | .expired => ([], none, [.listHistory h])
      | .data d =>
        match d.history with
        | some items =>
            (items.foldl (fun acc it =>
                acc ++ (match it with | some ids => ids | none => [])) [],
             some d.historyId, [.listHistory h])
        | none => ([], some d.historyId, [.listHistory h])
  match step1 with
  | (_, none, calls) =>
      (env.recentMessages.map (fun m => m.id), some env.freshHistoryId,
       calls ++ [.fetchRecent 20, .getHistoryId])
  | (msgs, some h, calls) => (msgs, some h, calls)

/-- The `for (const messageId of messagesToProcess)` loop in `poll`. -/
def processAll (env : Env) (st : WatcherState) (ids : List String) :
    WatcherState × List Call :=
  match ids with
  | [] => (st, [])
  | id :: rest =>
    let r := processMessage env st id
    let r' := processAll env r.1 rest
    (r'.1, r.2.1 ++ r'.2)

/-- `saveProcessedIds()`: trims the in-memory set to the last 10000 entries
when it exceeds 10000, then writes `{ ids, historyId, savedAt }`. -/
def saveProcessedIds (st : WatcherState) : WatcherState × SavedFile :=
  let idsArray := st.processedIds
  let st' :=
    if idsArray.length > 10000 then
      { st with processedIds := idsArray.drop (idsArray.length - 10000) }
    else st
  (st', { ids := st'.processedIds, historyId := st'.lastHistoryId })

/-- `poll()`: auth guard, `stats.lastRun` update, sync resolution, sequential
processing, and the end-of-cycle save when candidates were found. -/
def poll (env : Env) (st : WatcherState) : WatcherState × List Call :=
  if !env.authenticated then (st, [])
  else
    let st₁ := { st with stats := { st.stats with lastRun := some env.now } }
    let sync := resolveSync env st₁.lastHistoryId
    let st₂ := { st₁ with lastHistoryId := sync.2.1 }
    if sync.1.length > 0 then
      let r := processAll env st₂ sync.1
      let r' := saveProcessedIds r.1
      (r'.1, sync.2.2 ++ r.2)
    else (st₂, sync.2.2)

/-- `loadProcessedIds()`: on success rebuilds the set (JS `new Set` keeps the
first occurrence of each id) and reads `historyId || null`; on a missing file
only `processedIds` is reset. -/
def loadProcessedIds (file : Option SavedFile) (st : WatcherState) :
    WatcherState :=
  match file with
  | some f =>
      { st with
          processedIds := f.ids.eraseDups,
          lastHistoryId :=
            match f.historyId with
            | some h => if h = "" then none else some h
            | none => none }
  | none => { st with processedIds := [] }

/-- `startWatcher()`: early-return `false` when the timer is armed; throw when
unauthenticated; otherwise load state, `parseInt(POLL_INTERVAL_MS) || 60000`
(`pollIntervalEnv = none` models NaN, i.e. unset/unparsable), run one `poll`,
arm the timer, set `isRunning`, return `true`. -/
def startWatcher (env : Env) (file : Option SavedFile)
    (pollIntervalEnv : Option Nat) (st : WatcherState) :
    Except String (WatcherState × Bool × List Call) :=
  if st.watcherInterval.isSome then .ok (st, false, [])
  else if !env.authenticated then .error "Not authenticated with Gmail"
  else
    let st₁ := loadProcessedIds file st
    let intervalMs :=
      match pollIntervalEnv with
      | some n => if n = 0 then 60000 else n
      | none => 60000
    let r := poll env st₁
    .ok ({ r.1 with
            watcherInterval := some intervalMs,
            stats := { r.1.stats with isRunning := true } },
         true, r.2)

/-- `stopWatcher()`. -/
def stopWatcher (st : WatcherState) : WatcherState × Bool :=
  if st.watcherInterval.isSome then
    ({ st with watcherInterval := none,
               stats := { st.stats with isRunning := false } }, true)
  else (st, false)

/-- The stats invariant of claim C10. -/
def statsInv (s : WatcherStats) : Prop :=
  s.totalProcessed = s.important + s.review + s.junk

/-- The four non-error classification counters. -/
def nonErrStats (s : WatcherStats) : Nat × Nat × Nat × Nat :=
  (s.totalProcessed, s.important, s.review, s.junk)

theorem str_append_ne_empty (a b : String) (h : a ≠ "") :
    ((a ++ b) == "") = false := by
  rw [beq_eq_false_iff_ne]
  intro hc
  apply h
  have hl := congrArg String.length hc
  rw [String.length_append] at hl
  have ha : a.length = 0 := by
    have : ("" : String).length = 0 := rfl
    omega
  cases a with
  | mk data =>
    cases data with
    | nil => rfl
    | cons c cs => simp [String.length] at ha

/-- C2: for any ClassificationResult category, `applyClassification` issues
exactly the mutations of the category-mapping table: IMPORTANT issues one
label-modify call adding one label and removing none (no trash); REVIEW issues
one label-modify call adding one label and removing the INBOX marker; JUNK
issues one trash call and no label-modify call. -/
theorem applyClassification_category_mapping
    (labelIds : Category → Option String)
    (modifyResult : String → List String → List String → Except String Unit)
    (trashResult : String → Except String Unit)
    (messageId li lr : String)
    (hI : labelIds .IMPORTANT = some li)
    (hR : labelIds .REVIEW = some lr) :
    (applyClassification labelIds modifyResult trashResult messageId
        .IMPORTANT).1 = [.modifyLabels messageId [li] []]
    ∧ (applyClassification labelIds modifyResult trashResult messageId
        .REVIEW).1 = [.modifyLabels messageId [lr] ["INBOX"]]
    ∧ (applyClassification labelIds modifyResult trashResult messageId
        .JUNK).1 = [.trash messageId] := by
  refine ⟨?_, ?_, ?_⟩
  · rcases hm : modifyResult messageId [li] [] with e | u <;>
      simp [applyClassification, hI, hm]
  · rcases hm : modifyResult messageId [lr] ["INBOX"] with e | u <;>
      simp [applyClassification, hR, hm]
  · rcases ht : trashResult messageId with e | u <;>
      simp [applyClassification, ht]

/-- Concrete label-id map for witnesses. -/
def labelIdsW : Category → Option String
  | .IMPORTANT => some "Label_1"
  | .REVIEW => some "Label_2"
  | .JUNK => none

theorem applyClassification_category_mapping_witness :
    (applyClassification labelIdsW (fun _ _ _ => .ok ()) (fun _ => .ok ())
        "m1" .IMPORTANT).1 = [.modifyLabels "m1" ["Label_1"] []]
    ∧ (applyClassification labelIdsW (fun _ _ _ => .ok ()) (fun _ => .ok ())
        "m1" .REVIEW).1 = [.modifyLabels "m1" ["Label_2"] ["INBOX"]]
    ∧ (applyClassification labelIdsW (fun _ _ _ => .ok ()) (fun _ => .ok ())
        "m1" .JUNK).1 = [.trash "m1"] :=
  applyClassification_category_mapping labelIdsW _ _ "m1" "Label_1" "Label_2"
    rfl rfl

/-- C3: whenever `saveProcessedIds` runs with more than 10000 ids in the set,
the persisted ledger holds exactly 10000 ids, namely the suffix of the
insertion-ordered set that drops the oldest entries. -/
theorem saveProcessedIds_bounded (st : WatcherState)
    (h : st.processedIds.length > 10000) :
    (saveProcessedIds st).2.ids.length = 10000
    ∧ (saveProcessedIds st).2.ids
        = st.processedIds.drop (st.processedIds.length - 10000)
    ∧ (saveProcessedIds st).2.ids <:+ st.processedIds := by
  have hsave : (saveProcessedIds st).2.ids
      = st.processedIds.drop (st.processedIds.length - 10000) := by
    simp [saveProcessedIds, h]
  refine ⟨?_, hsave, ?_⟩
  · rw [hsave, List.length_drop]; omega
  · rw [hsave]; exact List.drop_suffix _ _

/-- A watcher state with 10001 distinct processed ids. -/
def bigState : WatcherState :=
  { watcherInterval := none, lastHistoryId := some "h0",
    processedIds := (List.range 10001).map (fun n => toString n),
    stats := ⟨0, 0, 0, 0, 0, none, false⟩ }

theorem saveProcessedIds_bounded_witness :
    (saveProcessedIds bigState).2.ids.length = 10000
    ∧ (saveProcessedIds bigState).2.ids
        = bigState.processedIds.drop (bigState.processedIds.length - 10000)
    ∧ (saveProcessedIds bigState).2.ids <:+ bigState.processedIds :=
  saveProcessedIds_bounded bigState (by simp [bigState])

/-- C6 counterexample: with the OpenAI client uninitialized and
`OPENAI_API_KEY` unset, `classifyEmail` throws instead of returning a REVIEW
fallback, even though the model call itself would have succeeded. -/
theorem classifyEmail_raises_cex :
    classifyEmail false false
        (.parsed (.jstr "IMPORTANT") (.jnum 0.9) (.jstr "fine"))
      = .error "OPENAI_API_KEY not set" := rfl

/-- C6 amended: provided the OpenAI client is already initialized or the API
key is set, `classifyEmail` never throws, and any failure inside the model
call or its validation resolves to category REVIEW, confidence 0, and a reason
string describing the failure. -/
theorem classifyEmail_nonthrowing (openaiReady apiKeySet : Bool)
    (o : ModelOutcome) (h : openaiReady = true ∨ apiKeySet = true) :
    classifyEmail openaiReady apiKeySet o = .ok (classifyCore o)
    ∧ (∀ msg, o = .apiError msg →
        classifyCore o
          = { classification := .REVIEW, confidence := 0,
              reason := .jstr ("Classification error: " ++ msg) })
    ∧ (∀ c conf rsn, o = .parsed c conf rsn →
        isValidClassification c = false →
        classifyCore o
          = { classification := .REVIEW, confidence := 0,
              reason :=
                .jstr ("Classification error: Invalid classification: "
                        ++ jvalToString c) }) := by
  refine ⟨?_, ?_, ?_⟩
  · rcases h with h | h <;> simp [classifyEmail, h]
  · rintro msg rfl; rfl
  · rintro c conf rsn rfl hv; simp [classifyCore, hv]

theorem classifyEmail_nonthrowing_witness :
    classifyEmail true false (.apiError "network down")
      = .ok (classifyCore (.apiError "network down"))
    ∧ (∀ msg, ModelOutcome.apiError "network down" = .apiError msg →
        classifyCore (.apiError "network down")
          = { classification := .REVIEW, confidence := 0,
              reason := .jstr ("Classification error: " ++ msg) })
    ∧ (∀ c conf rsn,
        ModelOutcome.apiError "network down" = .parsed c conf rsn →
        isValidClassification c = false →
        classifyCore (.apiError "network down")
          = { classification := .REVIEW, confidence := 0,
              reason :=
                .jstr ("Classification error: Invalid classification: "
                        ++ jvalToString c) }) :=
  classifyEmail_nonthrowing true false (.apiError "network down") (Or.inl rfl)

/-- C9 counterexample: a truthy non-string `reason` in the model's JSON reply
is passed through unchanged, so the returned result's reason is not a
non-empty string. -/
theorem classifyEmail_reason_not_string_cex :
    classifyEmail true true (.parsed (.jstr "IMPORTANT") (.jnum 0.9) (.jnum 7))
      = .ok (classifyCore (.parsed (.jstr "IMPORTANT") (.jnum 0.9) (.jnum 7)))
    ∧ (classifyCore (.parsed (.jstr "IMPORTANT") (.jnum 0.9)
        (.jnum 7))).reason = .jnum 7
    ∧ isNonEmptyStr (classifyCore (.parsed (.jstr "IMPORTANT") (.jnum 0.9)
        (.jnum 7))).reason = false := by
  refine ⟨rfl, by decide, by decide⟩

/-- Whether the model reply's reason field is a string or a falsy value (the
cases in which the `reason || fallback` expression yields a string). -/
def reasonStrOrFalsy : ModelOutcome → Bool
  | .apiError _ => true
  | .parsed _ _ rv => isNonEmptyStr rv || !truthy rv

/-- C9 amended: every result returned by `classifyEmail` has a category among
the three, confidence in [0,1] (also for invalid categories and out-of-range
or non-numeric confidence), and a truthy reason; the reason is moreover a
non-empty string whenever the model's reason field was a string or falsy (a
truthy non-string reason is passed through as-is). -/
theorem classifyEmail_wellformed (openaiReady apiKeySet : Bool)
    (o : ModelOutcome) (r : ClassificationResult)
    (h : classifyEmail openaiReady apiKeySet o = .ok r) :
    (r.classification = .IMPORTANT ∨ r.classification = .REVIEW
      ∨ r.classification = .JUNK)
    ∧ 0 ≤ r.confidence ∧ r.confidence ≤ 1
    ∧ truthy r.reason = true
    ∧ (reasonStrOrFalsy o = true → isNonEmptyStr r.reason = true) := by
  have hr : r = classifyCore o := by
    unfold classifyEmail at h
    split at h
    · cases h
    · injection h with h'
      exact h'.symm
  subst hr
  have hcat : (classifyCore o).classification = .IMPORTANT
      ∨ (classifyCore o).classification = .REVIEW
      ∨ (classifyCore o).classification = .JUNK := by
    cases (classifyCore o).classification <;> simp
  have hconf : 0 ≤ (classifyCore o).confidence
      ∧ (classifyCore o).confidence ≤ 1 := by
    cases o with
    | apiError msg =>
      constructor <;> norm_num [classifyCore]
    | parsed c conf rsn =>
      by_cases hv : isValidClassification c = true
      · simp only [classifyCore]
        rw [if_pos hv]
        show 0 ≤ fixConfidence conf ∧ fixConfidence conf ≤ 1
        cases conf with
        | jnum q =>
          simp only [fixConfidence]
          by_cases hq : q < 0 ∨ q > 1
          · rw [if_pos hq]; constructor <;> norm_num
          · rw [if_neg hq]
            push_neg at hq
            exact ⟨hq.1, hq.2⟩
        | jstr s => constructor <;> norm_num [fixConfidence]
        | jbool b => constructor <;> norm_num [fixConfidence]
        | jnull => constructor <;> norm_num [fixConfidence]
      · simp only [classifyCore]
        rw [if_neg hv]
        constructor <;> norm_num
  have htru : truthy (classifyCore o).reason = true := by
    cases o with
    | apiError msg =>
      show (!(("Classification error: " ++ msg) == "")) = true
      rw [str_append_ne_empty "Classification error: " msg (by decide)]
      rfl
    | parsed c conf rsn =>
      by_cases hv : isValidClassification c = true
      · simp only [classifyCore]
        rw [if_pos hv]
        show truthy (if truthy rsn then rsn
            else JVal.jstr "No reason provided") = true
        cases htr : truthy rsn with
        | false =>
          rw [if_neg (by decide)]
          decide
        | true =>
          rw [if_pos rfl]
          exact htr
      · simp only [classifyCore]
        rw [if_neg hv]
        show (!(("Classification error: Invalid classification: "
            ++ jvalToString c) == "")) = true
        rw [str_append_ne_empty "Classification error: Invalid classification: "
          (jvalToString c) (by decide)]
        rfl
  have hne : reasonStrOrFalsy o = true →
      isNonEmptyStr (classifyCore o).reason = true := by
    cases o with
    | apiError msg =>
      intro _
      show (!(("Classification error: " ++ msg) == "")) = true
      rw [str_append_ne_empty "Classification error: " msg (by decide)]
      rfl
    | parsed c conf rsn =>
      intro hso
      simp only [reasonStrOrFalsy] at hso
      by_cases hv : isValidClassification c = true
      · simp only [classifyCore]
        rw [if_pos hv]
        show isNonEmptyStr (if truthy rsn then rsn
            else JVal.jstr "No reason provided") = true
        cases htr : truthy rsn with
        | false =>
          rw [if_neg (by decide)]
          decide
        | true =>
          rw [if_pos rfl]
          simp [htr] at hso
          exact hso
      · simp only [classifyCore]
        rw [if_neg hv]
        show (!(("Classification error: Invalid classification: "
            ++ jvalToString c) == "")) = true
        rw [str_append_ne_empty "Classification error: Invalid classification: "
          (jvalToString c) (by decide)]
        rfl
  exact ⟨hcat, hconf.1, hconf.2, htru, hne⟩

theorem classifyEmail_wellformed_witness :
    ((classifyCore (.apiError "x")).classification = .IMPORTANT
      ∨ (classifyCore (.apiError "x")).classification = .REVIEW
      ∨ (classifyCore (.apiError "x")).classification = .JUNK)
    ∧ 0 ≤ (classifyCore (.apiError "x")).confidence
    ∧ (classifyCore (.apiError "x")).confidence ≤ 1
    ∧ truthy (classifyCore (.apiError "x")).reason = true
    ∧ (reasonStrOrFalsy (.apiError "x") = true →
        isNonEmptyStr (classifyCore (.apiError "x")).reason = true) :=
  classifyEmail_wellformed true true (.apiError "x")
    (classifyCore (.apiError "x")) rfl

theorem mem_addId (l : List String) (id : String) : id ∈ addId l id := by
  by_cases h : id ∈ l <;> simp [addId, h]

theorem processMessage_skip (env : Env) (st : WatcherState) (id : String)
    (h : id ∈ st.processedIds) : processMessage env st id = (st, [], none) := by
  simp [processMessage, h]

theorem caughtError_not_in_apply (labelIds : Category → Option String)
    (modifyResult : String → List String → List String → Except String Unit)
    (trashResult : String → Except String Unit) (id : String) (c : Category) :
    Call.caughtError
      ∉ (applyClassification labelIds modifyResult trashResult id c).1 := by
  by_cases hc : c = Category.JUNK
  · rcases ht : trashResult id with e | u <;>
      simp [applyClassification, hc, ht]
  · rcases hl : labelIds c with _ | lid
    · simp [applyClassification, hc, hl]
    · rcases hm : modifyResult id [lid]
          (if c = .REVIEW then ["INBOX"] else []) with e | u <;>
        simp [applyClassification, hc, hl, hm]

theorem processMessage_mark_or_stats (env : Env) (st : WatcherState)
    (id : String) :
    id ∈ (processMessage env st id).1.processedIds
    ∨ nonErrStats (processMessage env st id).1.stats = nonErrStats st.stats := by
  by_cases hmem : id ∈ st.processedIds
  · left; simp [processMessage, hmem]
  · rcases hf : env.fetch id with e | email
    · right; simp [processMessage, hmem, hf, nonErrStats]
    · by_cases hinbox : "INBOX" ∈ email.labelIds
      · by_cases hlab : ∃ x ∈ email.labelIds, x ∈ ourLabels
        · left; simp [processMessage, hmem, hf, hinbox, hlab, mem_addId]
        · rcases hcl : classifyEmail env.openaiReady env.apiKeySet
              (env.classifyOutcome email) with e | result
          · right
            simp [processMessage, hmem, hf, hinbox, hlab, hcl, nonErrStats]
          · rcases ha : (applyClassification env.labelIds env.modifyResult
                env.trashResult id result.classification).2 with e | ar
            · right
              simp [processMessage, hmem, hf, hinbox, hlab, hcl, ha,
                nonErrStats]
            · left
              simp [processMessage, hmem, hf, hinbox, hlab, hcl, ha,
                mem_addId]
      · left; simp [processMessage, hmem, hf, hinbox, mem_addId]

theorem processMessage_stats_cases (env : Env) (st : WatcherState)
    (id : String) :
    ((processMessage env st id).1.stats.totalProcessed
        = st.stats.totalProcessed
      ∧ (processMessage env st id).1.stats.important = st.stats.important
      ∧ (processMessage env st id).1.stats.review = st.stats.review
      ∧ (processMessage env st id).1.stats.junk = st.stats.junk)
    ∨ ((processMessage env st id).1.stats.totalProcessed
        = st.stats.totalProcessed + 1
      ∧ ((processMessage env st id).1.stats.important
            = st.stats.important + 1
          ∧ (processMessage env st id).1.stats.review = st.stats.review
          ∧ (processMessage env st id).1.stats.junk = st.stats.junk
        ∨ ((processMessage env st id).1.stats.important = st.stats.important
          ∧ (processMessage env st id).1.stats.review = st.stats.review + 1
          ∧ (processMessage env st id).1.stats.junk = st.stats.junk)
        ∨ ((processMessage env st id).1.stats.important = st.stats.important
          ∧ (processMessage env st id).1.stats.review = st.stats.review
          ∧ (processMessage env st id).1.stats.junk
              = st.stats.junk + 1))) := by
  by_cases hmem : id ∈ st.processedIds
  · left; simp [processMessage, hmem]
  · rcases hf : env.fetch id with e | email
    · left; simp [processMessage, hmem, hf]
    · by_cases hinbox : "INBOX" ∈ email.labelIds
      · by_cases hlab : ∃ x ∈ email.labelIds, x ∈ ourLabels
        · left; simp [processMessage, hmem, hf, hinbox, hlab]
        · rcases hcl : classifyEmail env.openaiReady env.apiKeySet
              (env.classifyOutcome email) with e | result
          · left; simp [processMessage, hmem, hf, hinbox, hlab, hcl]
          · rcases ha : (applyClassification env.labelIds env.modifyResult
                env.trashResult id result.classification).2 with e | ar
            · left; simp [processMessage, hmem, hf, hinbox, hlab, hcl, ha]
            · right
              cases hcat : result.classification with
              | IMPORTANT =>
                rw [hcat] at ha
                refine ⟨?_, Or.inl ⟨?_, ?_, ?_⟩⟩ <;>
                  simp [processMessage, hmem, hf, hinbox, hlab, hcl, ha,
                    hcat, bumpCategory]
              | REVIEW =>
                rw [hcat] at ha
                refine ⟨?_, Or.inr (Or.inl ⟨?_, ?_, ?_⟩)⟩ <;>
                  simp [processMessage, hmem, hf, hinbox, hlab, hcl, ha,
                    hcat, bumpCategory]
              | JUNK =>
                rw [hcat] at ha
                refine ⟨?_, Or.inr (Or.inr ⟨?_, ?_, ?_⟩)⟩ <;>
                  simp [processMessage, hmem, hf, hinbox, hlab, hcl, ha,
                    hcat, bumpCategory]
      · left; simp [processMessage, hmem, hf, hinbox]

theorem processMessage_statsInv (env : Env) (st : WatcherState) (id : String)
    (h : statsInv st.stats) : statsInv (processMessage env st id).1.stats := by
  have hc := processMessage_stats_cases env st id
  unfold statsInv at *
  rcases hc with ⟨h1, h2, h3, h4⟩ |
    ⟨h1, ⟨h2, h3, h4⟩ | ⟨h2, h3, h4⟩ | ⟨h2, h3, h4⟩⟩ <;> omega

theorem processAll_statsInv (env : Env) (ids : List String) :
    ∀ st : WatcherState, statsInv st.stats →
      statsInv (processAll env st ids).1.stats := by
  induction ids with
  | nil => intro st h; simpa [processAll] using h
  | cons id rest ih =>
    intro st h
    simp only [processAll]
    exact ih _ (processMessage_statsInv env st id h)

theorem saveProcessedIds_stats (st : WatcherState) :
    (saveProcessedIds st).1.stats = st.stats := by
  unfold saveProcessedIds
  dsimp only
  by_cases h : st.processedIds.length > 10000
  · rw [if_pos h]
  · rw [if_neg h]

theorem loadProcessedIds_stats (file : Option SavedFile) (st : WatcherState) :
    (loadProcessedIds file st).stats = st.stats := by
  cases file <;> rfl

theorem poll_statsInv (env : Env) (st : WatcherState) (h : statsInv st.stats) :
    statsInv (poll env st).1.stats := by
  unfold poll
  cases hauth : env.authenticated with
  | false => simpa using h
  | true =>
    simp only [Bool.not_true, Bool.false_eq_true, if_false]
    split
    · dsimp only
      rw [saveProcessedIds_stats]
      exact processAll_statsInv env _ _ (by simpa [statsInv] using h)
    · simpa [statsInv] using h

theorem processMessage_lastHistoryId (env : Env) (st : WatcherState)
    (id : String) :
    (processMessage env st id).1.lastHistoryId = st.lastHistoryId := by
  by_cases hmem : id ∈ st.processedIds
  · simp [processMessage, hmem]
  · rcases hf : env.fetch id with e | email
    · simp [processMessage, hmem, hf]
    · by_cases hinbox : "INBOX" ∈ email.labelIds
      · by_cases hlab : ∃ x ∈ email.labelIds, x ∈ ourLabels
        · simp [processMessage, hmem, hf, hinbox, hlab]
        · rcases hcl : classifyEmail env.openaiReady env.apiKeySet
              (env.classifyOutcome email) with e | result
          · simp [processMessage, hmem, hf, hinbox, hlab, hcl]
          · rcases ha : (applyClassification env.labelIds env.modifyResult
                env.trashResult id result.classification).2 with e | ar <;>
              simp [processMessage, hmem, hf, hinbox, hlab, hcl, ha]
      · simp [processMessage, hmem, hf, hinbox]

theorem processAll_lastHistoryId (env : Env) (ids : List String) :
    ∀ st : WatcherState,
      (processAll env st ids).1.lastHistoryId = st.lastHistoryId := by
  induction ids with
  | nil => intro st; simp [processAll]
  | cons id rest ih =>
    intro st
    simp only [processAll]
    rw [ih, processMessage_lastHistoryId]

theorem saveProcessedIds_lastHistoryId (st : WatcherState) :
    (saveProcessedIds st).1.lastHistoryId = st.lastHistoryId := by
  unfold saveProcessedIds
  dsimp only
  by_cases h : st.processedIds.length > 10000
  · rw [if_pos h]
  · rw [if_neg h]

/-- Concrete stats record for witnesses. -/
def statsW : WatcherStats := ⟨0, 0, 0, 0, 0, none, false⟩

/-- Fresh watcher state. -/
def stW : WatcherState := ⟨none, none, [], statsW⟩

/-- Watcher state whose ledger already contains id "a". -/
def stMarked : WatcherState := ⟨none, none, ["a"], statsW⟩

/-- Watcher state with an incremental-sync cursor. -/
def stCursor : WatcherState := { stW with lastHistoryId := some "h0" }

/-- A fetched message that already carries a classification label. -/
def emailLabeled : MessageRecord :=
  ⟨"m2", "t2", ["INBOX", "AI-Review"], "alice@example.com", "bob@example.com",
   "hello", "2026-01-01", "snip", "body"⟩

/-- Concrete environment for witnesses: authenticated, expired history,
fetch succeeds only for "m2" (with an already-labeled record). -/
def envW : Env :=
  { authenticated := true,
    now := "2026-01-01T00:00:00Z",
    listHistory := fun _ => .expired,
    recentMessages := [],
    freshHistoryId := "h1",
    fetch := fun i =>
      if i = "m2" then .ok emailLabeled else .error "fetch failed",
    openaiReady := true,
    apiKeySet := true,
    classifyOutcome := fun _ =>
      .parsed (.jstr "IMPORTANT") (.jnum 0.9) (.jstr "ok"),
    labelIds := labelIdsW,
    modifyResult := fun _ _ _ => .ok (),
    trashResult := fun _ => .ok () }

/-- Unauthenticated variant of the witness environment. -/
def envNoAuth : Env := { envW with authenticated := false }

/-- C1 counterexample: for an id whose fetch fails, the id is not marked
processed, so processing it twice within one dedup epoch changes the stats
object twice (the error counter goes 0, 1, 2), contradicting the claim's
"changes stats at most once" clause. -/
theorem processMessage_twice_cex :
    (processMessage envW (processMessage envW stW "bad").1 "bad").1.stats.errors
        = 2
    ∧ ¬((processMessage envW (processMessage envW stW "bad").1 "bad").1.stats
          = (processMessage envW stW "bad").1.stats
        ∨ (processMessage envW stW "bad").1.stats = stW.stats) := by
  decide

/-- C1 amended: processing an id already in the ProcessedIdSet is a complete
no-op (state unchanged, no service call, no result); hence processing the same
id twice changes the totalProcessed/important/review/junk counters at most
once — only the error counter can move on both attempts, when processing
fails and the id stays unmarked. -/
theorem processMessage_dedup_idempotent (env : Env) (st : WatcherState)
    (id : String) :
    (id ∈ st.processedIds → processMessage env st id = (st, [], none))
    ∧ (nonErrStats (processMessage env (processMessage env st id).1 id).1.stats
          = nonErrStats (processMessage env st id).1.stats
      ∨ nonErrStats (processMessage env st id).1.stats
          = nonErrStats st.stats) := by
  constructor
  · intro h
    exact processMessage_skip env st id h
  · rcases processMessage_mark_or_stats env st id with hmark | hstats
    · left
      rw [processMessage_skip env _ id hmark]
    · right
      exact hstats

theorem processMessage_dedup_idempotent_witness :
    processMessage envW stMarked "a" = (stMarked, [], none)
    ∧ (nonErrStats (processMessage envW
            (processMessage envW stMarked "a").1 "a").1.stats
          = nonErrStats (processMessage envW stMarked "a").1.stats
      ∨ nonErrStats (processMessage envW stMarked "a").1.stats
          = nonErrStats stMarked.stats) :=
  ⟨(processMessage_dedup_idempotent envW stMarked "a").1 (by decide),
   (processMessage_dedup_idempotent envW stMarked "a").2⟩

/-- C5: whenever processing one candidate catches an exception (fetch,
classification, or action application threw), exactly the error counter is
incremented, the id is not added to the ProcessedIdSet, all other stats fields
are unchanged, no result is returned, and the processing loop continues with
the remaining candidates. -/
theorem processMessage_error_isolated (env : Env) (st : WatcherState)
    (id : String) (h : Call.caughtError ∈ (processMessage env st id).2.1) :
    (processMessage env st id).1.stats.errors = st.stats.errors + 1
    ∧ (processMessage env st id).1.processedIds = st.processedIds
    ∧ (processMessage env st id).1.stats.totalProcessed
        = st.stats.totalProcessed
    ∧ (processMessage env st id).1.stats.important = st.stats.important
    ∧ (processMessage env st id).1.stats.review = st.stats.review
    ∧ (processMessage env st id).1.stats.junk = st.stats.junk
    ∧ (processMessage env st id).1.stats.lastRun = st.stats.lastRun
    ∧ (processMessage env st id).1.stats.isRunning = st.stats.isRunning
    ∧ (processMessage env st id).2.2 = none
    ∧ (∀ rest, processAll env st (id :: rest)
        = ((processAll env (processMessage env st id).1 rest).1,
           (processMessage env st id).2.1
             ++ (processAll env (processMessage env st id).1 rest).2)) := by
  have hcont : ∀ rest, processAll env st (id :: rest)
      = ((processAll env (processMessage env st id).1 rest).1,
         (processMessage env st id).2.1
           ++ (processAll env (processMessage env st id).1 rest).2) := by
    intro rest; rfl
  by_cases hmem : id ∈ st.processedIds
  · rw [processMessage_skip env st id hmem] at h
    simp at h
  · rcases hf : env.fetch id with e | email
    · refine ⟨?_, ?_, ?_, ?_, ?_, ?_, ?_, ?_, ?_, hcont⟩ <;>
        simp [processMessage, hmem, hf]
    · by_cases hinbox : "INBOX" ∈ email.labelIds
      · by_cases hlab : ∃ x ∈ email.labelIds, x ∈ ourLabels
        · exfalso
          simp [processMessage, hmem, hf, hinbox, hlab] at h
        · rcases hcl : classifyEmail env.openaiReady env.apiKeySet
              (env.classifyOutcome email) with e | result
          · refine ⟨?_, ?_, ?_, ?_, ?_, ?_, ?_, ?_, ?_, hcont⟩ <;>
              simp [processMessage, hmem, hf, hinbox, hlab, hcl]
          · rcases ha : (applyClassification env.labelIds env.modifyResult
                env.trashResult id result.classification).2 with e | ar
            · refine ⟨?_, ?_, ?_, ?_, ?_, ?_, ?_, ?_, ?_, hcont⟩ <;>
                simp [processMessage, hmem, hf, hinbox, hlab, hcl, ha]
            · exfalso
              have hni := caughtError_not_in_apply env.labelIds
                env.modifyResult env.trashResult id result.classification
              simp [processMessage, hmem, hf, hinbox, hlab, hcl, ha] at h
              exact hni h
      · exfalso
        simp [processMessage, hmem, hf, hinbox] at h

theorem processMessage_error_isolated_witness :
    (processMessage envW stW "bad").1.stats.errors = stW.stats.errors + 1
    ∧ (processMessage envW stW "bad").1.processedIds = stW.processedIds
    ∧ (processMessage envW stW "bad").1.stats.totalProcessed
        = stW.stats.totalProcessed
    ∧ (processMessage envW stW "bad").1.stats.important = stW.stats.important
    ∧ (processMessage envW stW "bad").1.stats.review = stW.stats.review
    ∧ (processMessage envW stW "bad").1.stats.junk = stW.stats.junk
    ∧ (processMessage envW stW "bad").1.stats.lastRun = stW.stats.lastRun
    ∧ (processMessage envW stW "bad").1.stats.isRunning
        = stW.stats.isRunning
    ∧ (processMessage envW stW "bad").2.2 = none
    ∧ (∀ rest, processAll envW stW ("bad" :: rest)
        = ((processAll envW (processMessage envW stW "bad").1 rest).1,
           (processMessage envW stW "bad").2.1
             ++ (processAll envW (processMessage envW stW "bad").1 rest).2)) :=
  processMessage_error_isolated envW stW "bad" (by decide)

/-- C7: a fetched record that already carries one of the three classification
labels is marked processed and skipped: the only service call is the fetch (no
classifier invocation, no mailbox mutation) and the stats are unchanged. -/
theorem processMessage_reentry_guard (env : Env) (st : WatcherState)
    (id : String) (email : MessageRecord)
    (hmem : id ∉ st.processedIds)
    (hf : env.fetch id = .ok email)
    (hlab : ∃ x ∈ email.labelIds, x ∈ ourLabels) :
    processMessage env st id
      = ({ st with processedIds := addId st.processedIds id },
         [.fetch id], none) := by
  by_cases hinbox : "INBOX" ∈ email.labelIds
  · simp [processMessage, hmem, hf, hinbox, hlab]
  · simp [processMessage, hmem, hf, hinbox]

theorem processMessage_reentry_guard_witness :
    processMessage envW stW "m2"
      = ({ stW with processedIds := addId stW.processedIds "m2" },
         [.fetch "m2"], none) :=
  processMessage_reentry_guard envW stW "m2" emailLabeled (by decide) rfl
    (by decide)

/-- C4: when the cursor is reported expired, the same cycle falls back to full
sync: the resolved candidates equal the no-cursor full sync's output (the ids
of the recent-inbox window of 20), the snapshot token is taken after candidate
retrieval, and after the poll the cursor is the fresh token (non-null). -/
theorem poll_expired_full_sync (env : Env) (st : WatcherState) (h : String)
    (hc : st.lastHistoryId = some h) (he : env.listHistory h = .expired)
    (ha : env.authenticated = true) :
    (resolveSync env st.lastHistoryId).1 = (resolveSync env none).1
    ∧ (resolveSync env st.lastHistoryId).1
        = env.recentMessages.map (fun m => m.id)
    ∧ (resolveSync env st.lastHistoryId).2.1 = some env.freshHistoryId
    ∧ (resolveSync env st.lastHistoryId).2.2
        = [.listHistory h, .fetchRecent 20, .getHistoryId]
    ∧ (poll env st).1.lastHistoryId = some env.freshHistoryId := by
  have hres : resolveSync env st.lastHistoryId
      = (env.recentMessages.map (fun m => m.id), some env.freshHistoryId,
         [.listHistory h, .fetchRecent 20, .getHistoryId]) := by
    rw [hc]
    simp [resolveSync, he]
  have hresN : resolveSync env none
      = (env.recentMessages.map (fun m => m.id), some env.freshHistoryId,
         [.fetchRecent 20, .getHistoryId]) := by
    simp [resolveSync]
  refine ⟨by rw [hres, hresN], by rw [hres], by rw [hres], by rw [hres], ?_⟩
  unfold poll
  rw [ha]
  simp only [Bool.not_true, Bool.false_eq_true, if_false]
  rw [hres]
  dsimp only
  split
  · dsimp only
    rw [saveProcessedIds_lastHistoryId, processAll_lastHistoryId]
  · rfl

theorem poll_expired_full_sync_witness :
    (resolveSync envW stCursor.lastHistoryId).1 = (resolveSync envW none).1
    ∧ (resolveSync envW stCursor.lastHistoryId).1
        = envW.recentMessages.map (fun m => m.id)
    ∧ (resolveSync envW stCursor.lastHistoryId).2.1
        = some envW.freshHistoryId
    ∧ (resolveSync envW stCursor.lastHistoryId).2.2
        = [.listHistory "h0", .fetchRecent 20, .getHistoryId]
    ∧ (poll envW stCursor).1.lastHistoryId = some envW.freshHistoryId :=
  poll_expired_full_sync envW stCursor "h0" rfl rfl rfl

/-- C8: `startWatcher` returns immediately (no load, no cycle, no new timer)
when the timer is already armed; throws the authentication error when not
running and unauthenticated; otherwise loads persisted state, runs one poll
cycle, and arms the timer with the default 60000 ms interval when the
POLL_INTERVAL_MS variable is unset. -/
theorem startWatcher_contract (env : Env) (file : Option SavedFile)
    (pInt : Option Nat) (st : WatcherState) :
    (st.watcherInterval.isSome = true →
      startWatcher env file pInt st = .ok (st, false, []))
    ∧ (st.watcherInterval = none → env.authenticated = false →
      startWatcher env file pInt st = .error "Not authenticated with Gmail")
    ∧ (st.watcherInterval = none → env.authenticated = true → pInt = none →
      startWatcher env file pInt st
        = .ok
            ({ (poll env (loadProcessedIds file st)).1 with
                watcherInterval := some 60000,
                stats :=
                  { (poll env (loadProcessedIds file st)).1.stats with
                      isRunning := true } },
             true,
             (poll env (loadProcessedIds file st)).2)) := by
  refine ⟨?_, ?_, ?_⟩
  · intro hrun
    simp [startWatcher, hrun]
  · intro hni hna
    simp [startWatcher, hni, hna]
  · intro hni hna hp
    subst hp
    simp [startWatcher, hni, hna]

theorem startWatcher_contract_witness :
    startWatcher envW none none
        ({ stW with watcherInterval := some 60000 })
      = .ok (({ stW with watcherInterval := some 60000 }), false, [])
    ∧ startWatcher envNoAuth none none stW
      = .error "Not authenticated with Gmail"
    ∧ startWatcher envW none none stW
      = .ok
          ({ (poll envW (loadProcessedIds none stW)).1 with
              watcherInterval := some 60000,
              stats :=
                { (poll envW (loadProcessedIds none stW)).1.stats with
                    isRunning := true } },
           true,
           (poll envW (loadProcessedIds none stW)).2) :=
  ⟨(startWatcher_contract envW none none
      ({ stW with watcherInterval := some 60000 })).1 rfl,
   (startWatcher_contract envNoAuth none none stW).2.1 rfl rfl,
   (startWatcher_contract envW none none stW).2.2 rfl rfl rfl⟩

/-- C10: the stats invariant totalProcessed = important + review + junk is
preserved by every operation — processMessage changes the four counters either
not at all or by bumping totalProcessed together with exactly one category
counter, and processAll, poll, saveProcessedIds, loadProcessedIds, stopWatcher
and a successful startWatcher all preserve the invariant. -/
theorem stats_invariant_preserved (env : Env) (st : WatcherState)
    (id : String) (ids : List String) (file : Option SavedFile)
    (pInt : Option Nat) (h : statsInv st.stats) :
    statsInv (processMessage env st id).1.stats
    ∧ (((processMessage env st id).1.stats.totalProcessed
          = st.stats.totalProcessed
        ∧ (processMessage env st id).1.stats.important = st.stats.important
        ∧ (processMessage env st id).1.stats.review = st.stats.review
        ∧ (processMessage env st id).1.stats.junk = st.stats.junk)
      ∨ ((processMessage env st id).1.stats.totalProcessed
          = st.stats.totalProcessed + 1
        ∧ ((processMessage env st id).1.stats.important
              = st.stats.important + 1
            ∧ (processMessage env st id).1.stats.review = st.stats.review
            ∧ (processMessage env st id).1.stats.junk = st.stats.junk
          ∨ ((processMessage env st id).1.stats.important
              = st.stats.important
            ∧ (processMessage env st id).1.stats.review
                = st.stats.review + 1
            ∧ (processMessage env st id).1.stats.junk = st.stats.junk)
          ∨ ((processMessage env st id).1.stats.important
              = st.stats.important
            ∧ (processMessage env st id).1.stats.review = st.stats.review
            ∧ (processMessage env st id).1.stats.junk
                = st.stats.junk + 1))))
    ∧ statsInv (processAll env st ids).1.stats
    ∧ statsInv (poll env st).1.stats
    ∧ statsInv (saveProcessedIds st).1.stats
    ∧ statsInv (loadProcessedIds file st).stats
    ∧ statsInv (stopWatcher st).1.stats
    ∧ (∀ st' b calls, startWatcher env file pInt st = .ok (st', b, calls) →
        statsInv st'.stats) := by
  refine ⟨processMessage_statsInv env st id h,
          processMessage_stats_cases env st id,
          processAll_statsInv env ids st h,
          poll_statsInv env st h, ?_, ?_, ?_, ?_⟩
  · rw [saveProcessedIds_stats]
    exact h
  · rw [loadProcessedIds_stats]
    exact h
  · cases hw : st.watcherInterval.isSome <;>
      simpa [stopWatcher, hw, statsInv] using h
  · intro st' b calls hok
    by_cases hw : st.watcherInterval.isSome = true
    · unfold startWatcher at hok
      rw [if_pos hw] at hok
      injection hok with hok'
      obtain ⟨h1, h2⟩ := Prod.mk.injEq .. ▸ hok'
      rw [← h1]
      exact h
    · cases hauth : env.authenticated with
      | false =>
        unfold startWatcher at hok
        rw [if_neg hw] at hok
        simp [hauth] at hok
      | true =>
        unfold startWatcher at hok
        rw [if_neg hw] at hok
        simp only [hauth, Bool.not_true, Bool.false_eq_true, if_false] at hok
        injection hok with hok'
        obtain ⟨h1, h2⟩ := Prod.mk.injEq .. ▸ hok'
        rw [← h1]
        have hp : statsInv (poll env (loadProcessedIds file st)).1.stats :=
          poll_statsInv env _ (by rw [loadProcessedIds_stats]; exact h)
        simpa [statsInv] using hp

theorem stats_invariant_preserved_witness :
    statsInv (processMessage envW stW "a").1.stats
    ∧ (((processMessage envW stW "a").1.stats.totalProcessed
          = stW.stats.totalProcessed
        ∧ (processMessage envW stW "a").1.stats.important
            = stW.stats.important
        ∧ (processMessage envW stW "a").1.stats.review = stW.stats.review
        ∧ (processMessage envW stW "a").1.stats.junk = stW.stats.junk)
      ∨ ((processMessage envW stW "a").1.stats.totalProcessed
          = stW.stats.totalProcessed + 1
        ∧ ((processMessage envW stW "a").1.stats.important
              = stW.stats.important + 1
            ∧ (processMessage envW stW "a").1.stats.review
                = stW.stats.review
            ∧ (processMessage envW stW "a").1.stats.junk = stW.stats.junk
          ∨ ((processMessage envW stW "a").1.stats.important
              = stW.stats.important
            ∧ (processMessage envW stW "a").1.stats.review
                = stW.stats.review + 1
            ∧ (processMessage envW stW "a").1.stats.junk = stW.stats.junk)
          ∨ ((processMessage envW stW "a").1.stats.important
              = stW.stats.important
            ∧ (processMessage envW stW "a").1.stats.review
                = stW.stats.review
            ∧ (processMessage envW stW "a").1.stats.junk
                = stW.stats.junk + 1))))
    ∧ statsInv (processAll envW stW []).1.stats
    ∧ statsInv (poll envW stW).1.stats
    ∧ statsInv (saveProcessedIds stW).1.stats
    ∧ statsInv (loadProcessedIds none stW).stats
    ∧ statsInv (stopWatcher stW).1.stats
    ∧ (∀ st' b calls, startWatcher envW none none stW = .ok (st', b, calls) →
        statsInv st'.stats) :=
  stats_invariant_preserved envW stW "a" [] none none rfl
